import Mathlib

/-!
Shallow embedding of the multi-strategy web-content extraction subsystem
(`src/scraper.py`): the three stage extractors
(`_scrape_with_playwright`, `_scrape_with_trafilatura`,
`_scrape_with_beautifulsoup`), the per-URL cascade orchestrator
(`scrape_url`) and the batch scheduler (`scrape_urls`).

Network and browser effects are modelled as explicit environment data
(what the page / HTTP fetch yielded, or which exception was raised), so
each Python function becomes a pure Lean function of the URL and that
environment.
-/

namespace NewsScraper

/-- Whitespace characters recognised by Python's `str.split()` /
`str.strip()` on ASCII text (space, tab, newline, vertical tab,
form feed, carriage return). -/
def pyWs (c : Char) : Bool :=
  c = ' ' || c = '\t' || c = '\n' || c = '\x0b' || c = '\x0c' || c = '\r'

/-- Accumulator-based splitter: the words of a character list, where words
are maximal runs of non-whitespace characters (Python `str.split()` with
no argument). `acc` holds the current word, reversed. -/
def splitWsAux : List Char → List Char → List (List Char)
  | [], acc => if acc.isEmpty then [] else [acc.reverse]
  | c :: cs, acc =>
    if pyWs c then
      if acc.isEmpty then splitWsAux cs [] else acc.reverse :: splitWsAux cs []
    else
      splitWsAux cs (c :: acc)

/-- Python `s.split()`: the whitespace-separated words of `s`. -/
def pyWords (s : String) : List String :=
  (splitWsAux s.toList []).map String.mk

/-- Python `' '.join(s.split())`: collapse every whitespace run to a single
space and drop leading/trailing whitespace. -/
def normalizeWhitespace (s : String) : String :=
  String.intercalate " " (pyWords s)

/-- Python `s.strip()`: drop leading and trailing whitespace only. -/
def pyStrip (s : String) : String :=
  String.mk (((s.toList.dropWhile (pyWs ·)).reverse.dropWhile (pyWs ·)).reverse)

/-- Substring test on character lists (Python `pat in s`). -/
def containsSub (pat : List Char) : List Char → Bool
  | [] => pat.isEmpty
  | c :: cs => pat.isPrefixOf (c :: cs) || containsSub pat cs

/-- Python `'news.google.com' in url` (the guard on the trafilatura stage
in `scrape_url`). -/
def urlHasGoogleNews (url : String) : Bool :=
  containsSub "news.google.com".toList url.toList

/-- Extraction status: the `status` field of a scrape result dictionary. -/
inductive Status
  | success
  | short_content
  | failed
  deriving DecidableEq, Repr

/-- The result dictionary `{"url", "title", "content", "status", "error"}`
built by every stage of `scraper.py`. -/
structure ExtractionResult where
  url : String
  title : Option String
  content : String
  status : Status
  error : Option String
  deriving DecidableEq, Repr

/-! ## Dynamic (Playwright) stage -/

/-- What a successfully navigated Playwright page yields: the
post-redirect `page.url`, the page title (`none` when `page.title()`
raised), and, for each content strategy of `_scrape_with_playwright`,
the text it would produce (`none` when the element is absent or the
query raised, in which case the strategy leaves `content` unchanged). -/
structure PlaywrightPage where
  finalUrl : String
  title : Option String
  articleText : Option String
  mainText : Option String
  paragraphTexts : Option (List String)
  bodyText : Option String
  deriving DecidableEq, Repr

/-- Outcome of the browser part of `_scrape_with_playwright`: the launch
itself raised (outer `except`), navigation or a post-navigation await
raised inside the inner `try` (`Navigation failed: ...`), or the page
loaded. -/
inductive PlaywrightOutcome
  | launchError (msg : String)
  | navError (msg : String)
  | loaded (pg : PlaywrightPage)
  deriving DecidableEq, Repr

/-- One strategy step of the Playwright content cascade: the strategy body
runs only when the current content is empty or shorter than 200
characters, and then replaces it exactly when the candidate element was
found (`if not content or len(content) < 200: ... content = ...`). -/
def selStep (content : String) (cand : Option String) : String :=
  if content = "" ∨ content.length < 200 then cand.getD content else content

/-- Python `'\n\n'.join(...)` over the stripped non-empty paragraph texts
(strategy 3 of `_scrape_with_playwright`). -/
def joinParagraphs (ps : List String) : String :=
  String.intercalate "\n\n" ((ps.map pyStrip).filter (· ≠ ""))

/-- Strategies 1-4 of `_scrape_with_playwright`: `article` element, `main`
element, all paragraphs joined, `body` text, each consulted only while
the content so far is empty or under 200 characters. -/
def selectContent (pg : PlaywrightPage) : String :=
  selStep
    (selStep
      (selStep (selStep "" pg.articleText) pg.mainText)
      (pg.paragraphTexts.map joinParagraphs))
    pg.bodyText

/-- The cleanup line of `_scrape_with_playwright`:
`content = ' '.join(content.split()) if content else ''`. -/
def playwrightContent (pg : PlaywrightPage) : String :=
  if selectContent pg = "" then "" else normalizeWhitespace (selectContent pg)

/-- The `_scrape_with_playwright` stage as a function of the URL and the
browser outcome. -/
def _scrape_with_playwright (url : String) (out : PlaywrightOutcome) :
    ExtractionResult :=
  match out with
  | .launchError msg =>
    { url := url, title := none, content := "", status := .failed,
      error := some msg }
  | .navError msg =>
    { url := url, title := none, content := "", status := .failed,
      error := some ("Navigation failed: " ++ msg) }
  | .loaded pg =>
    if (playwrightContent pg).length < 200 then
      { url := pg.finalUrl, title := pg.title, content := playwrightContent pg,
        status := .short_content,
        error := some ("Content too short ("
          ++ toString (playwrightContent pg).length ++ " chars)") }
    else
      { url := pg.finalUrl, title := pg.title, content := playwrightContent pg,
        status := .success, error := none }

/-! ## Static (trafilatura) stage -/

/-- What a successful HTTP fetch feeds to trafilatura: the post-redirect
response URL (`response.url`, which the code never reads), the text
`trafilatura.extract` returned (`none` for Python `None`), and the
metadata title. -/
structure TrafilaturaFetch where
  finalUrl : String
  extracted : Option String
  title : Option String
  deriving DecidableEq, Repr

/-- Outcome of the fetch/extract part of `_scrape_with_trafilatura`:
either some exception was raised (request error, non-2xx status, ...)
or the fetch and extraction ran to completion. -/
inductive TrafilaturaOutcome
  | fetchError (msg : String)
  | fetched (f : TrafilaturaFetch)
  deriving DecidableEq, Repr

/-- The `_scrape_with_trafilatura` stage as a function of the URL and the
fetch outcome. -/
def _scrape_with_trafilatura (url : String) (out : TrafilaturaOutcome) :
    ExtractionResult :=
  match out with
  | .fetchError msg =>
    { url := url, title := none, content := "", status := .failed,
      error := some msg }
  | .fetched f =>
    match f.extracted with
    | some c =>
      if c ≠ "" ∧ 200 ≤ c.length then
        { url := url, title := f.title, content := pyStrip c,
          status := .success, error := none }
      else
        { url := url, title := none, content := "",
          status := .short_content,
          error := some ("Content too short (" ++ toString c.length
            ++ " chars)") }
    | none =>
      { url := url, title := none, content := "",
        status := .short_content,
        error := some ("Content too short (0 chars)") }

/-! ## Fallback (BeautifulSoup) stage -/

/-- What a successful HTTP fetch and parse feeds to the BeautifulSoup
stage: the post-redirect response URL (never read by the code), the text
of the first `h1` (if any), the text of the `title` tag (if any), and the
texts of the paragraphs found under the chosen content root
(`article` > `main` > `body`), after unwanted tags were removed. -/
structure SoupDoc where
  finalUrl : String
  h1Text : Option String
  titleText : Option String
  paragraphs : List String
  deriving DecidableEq, Repr

/-- Outcome of the fetch/parse part of `_scrape_with_beautifulsoup`. -/
inductive SoupOutcome
  | fetchError (msg : String)
  | fetched (d : SoupDoc)
  deriving DecidableEq, Repr

/-- Title resolution of `_scrape_with_beautifulsoup`:
`soup.find('h1') or soup.find('title')`, stripped, else `'No title'`. -/
def soupTitle (d : SoupDoc) : String :=
  match d.h1Text with
  | some t => pyStrip t
  | none =>
    match d.titleText with
    | some t => pyStrip t
    | none => "No title"

/-- Content assembly of `_scrape_with_beautifulsoup`: join the stripped
non-empty paragraph texts with blank lines, then collapse whitespace
(`content = '\n\n'.join(...)` followed by
`content = ' '.join(content.split())`). -/
def soupContent (d : SoupDoc) : String :=
  normalizeWhitespace
    (String.intercalate "\n\n" ((d.paragraphs.map pyStrip).filter (· ≠ "")))

/-- The `_scrape_with_beautifulsoup` stage as a function of the URL and
the fetch outcome. -/
def _scrape_with_beautifulsoup (url : String) (out : SoupOutcome) :
    ExtractionResult :=
  match out with
  | .fetchError msg =>
    { url := url, title := none, content := "", status := .failed,
      error := some msg }
  | .fetched d =>
    if 200 ≤ (soupContent d).length then
      { url := url, title := some (soupTitle d), content := soupContent d,
        status := .success, error := none }
    else
      { url := url, title := some (soupTitle d), content := soupContent d,
        status := .short_content,
        error := some ("Content too short ("
          ++ toString (soupContent d).length ++ " chars)") }

/-! ## Orchestrator and batch scheduler -/

/-- The module-level availability flags `PLAYWRIGHT_AVAILABLE` and
`TRAFILATURA_AVAILABLE` of `scraper.py`. -/
structure World where
  playwrightAvailable : Bool
  trafilaturaAvailable : Bool
  deriving DecidableEq, Repr

/-- The environment one `scrape_url` call runs against: what each of the
three stages would observe for this URL. -/
structure UrlOutcomes where
  pw : PlaywrightOutcome
  tf : TrafilaturaOutcome
  bs : SoupOutcome
  deriving DecidableEq, Repr

/-- The three extraction stages, for recording which stages a cascade
actually invoked. -/
inductive Stage
  | dynamic
  | static
  | fallback
  deriving DecidableEq, Repr

/-- The part of `scrape_url` after the Playwright attempt: trafilatura
(when available and the URL does not contain `news.google.com`),
returning on success, then BeautifulSoup unconditionally. Returns the
invoked stages together with the result. -/
def restAfterDynamic (w : World) (o : UrlOutcomes) (url : String) :
    List Stage × ExtractionResult :=
  if w.trafilaturaAvailable && !urlHasGoogleNews url then
    if (_scrape_with_trafilatura url o.tf).status = .success then
      ([.static], _scrape_with_trafilatura url o.tf)
    else
      ([.static, .fallback], _scrape_with_beautifulsoup url o.bs)
  else
    ([.fallback], _scrape_with_beautifulsoup url o.bs)

/-- The cascade of `scrape_url`, instrumented with the list of stages it
invokes, in order: Playwright when `PLAYWRIGHT_AVAILABLE and
use_playwright`, returning on success; then `restAfterDynamic`. -/
def scrape_url_trace (w : World) (o : UrlOutcomes) (url : String)
    (use_playwright : Bool) : List Stage × ExtractionResult :=
  if w.playwrightAvailable && use_playwright then
    if (_scrape_with_playwright url o.pw).status = .success then
      ([.dynamic], _scrape_with_playwright url o.pw)
    else
      (.dynamic :: (restAfterDynamic w o url).1, (restAfterDynamic w o url).2)
  else
    restAfterDynamic w o url

/-- The per-URL orchestrator `scrape_url`: the result of the cascade. -/
def scrape_url (w : World) (o : UrlOutcomes) (url : String)
    (use_playwright : Bool) : ExtractionResult :=
  (scrape_url_trace w o url use_playwright).2

/-- The batch scheduler `scrape_urls`: sequential when
`use_playwright and PLAYWRIGHT_AVAILABLE` (each call with
`use_playwright=True`), otherwise a concurrent `asyncio.gather` (each
call with `use_playwright=False`), which joins results back in input
order. `outs` gives the per-position environment. -/
def scrape_urls (w : World) (outs : Nat → UrlOutcomes) (urls : List String)
    (use_playwright : Bool) : List ExtractionResult :=
  if use_playwright && w.playwrightAvailable then
    urls.enum.map (fun p => scrape_url w (outs p.1) p.2 true)
  else
    urls.enum.map (fun p => scrape_url w (outs p.1) p.2 false)

set_option maxRecDepth 40000

/-! ## Concrete inputs used in witnesses and counterexamples -/

/-- A block of `n` copies of the letter `a`: already whitespace-normalized
text of length `n`. -/
def sampleText (n : Nat) : String :=
  String.mk (List.replicate n 'a')

/-- A block of `n` copies of the letter `b`. -/
def sampleTextB (n : Nat) : String :=
  String.mk (List.replicate n 'b')

/-! ## Helper lemmas -/

theorem normalizeWhitespace_empty : normalizeWhitespace "" = "" := rfl

/-- The cleanup line of the Playwright stage always produces the
whitespace-normalized selected text. -/
theorem playwrightContent_eq (pg : PlaywrightPage) :
    playwrightContent pg = normalizeWhitespace (selectContent pg) := by
  unfold playwrightContent
  split
  · rename_i h
    rw [h, normalizeWhitespace_empty]
  · rfl

/-- A cascade step leaves content of length at least 200 untouched. -/
theorem selStep_of_le (c : String) (cand : Option String)
    (h : 200 ≤ c.length) : selStep c cand = c := by
  unfold selStep
  rw [if_neg]
  rintro (rfl | hlt)
  · simp at h
  · omega

/-- A cascade step replaces short content with a present candidate. -/
theorem selStep_some_of_lt (c t : String) (h : c.length < 200) :
    selStep c (some t) = t := by
  unfold selStep
  rw [if_pos (Or.inr h)]
  rfl

/-- The result of `scrape_url` is the result of one of the three stage
functions; it can only be the Playwright or trafilatura result when that
result is a success. -/
theorem scrape_url_provenance (w : World) (o : UrlOutcomes) (url : String)
    (up : Bool) :
    (scrape_url w o url up = _scrape_with_playwright url o.pw ∧
      (_scrape_with_playwright url o.pw).status = .success) ∨
    (scrape_url w o url up = _scrape_with_trafilatura url o.tf ∧
      (_scrape_with_trafilatura url o.tf).status = .success) ∨
    scrape_url w o url up = _scrape_with_beautifulsoup url o.bs := by
  unfold scrape_url scrape_url_trace restAfterDynamic
  split
  · split
    · rename_i h
      exact Or.inl ⟨rfl, h⟩
    · split
      · split
        · rename_i h
          exact Or.inr (Or.inl ⟨rfl, h⟩)
        · exact Or.inr (Or.inr rfl)
      · exact Or.inr (Or.inr rfl)
  · split
    · split
      · rename_i h
        exact Or.inr (Or.inl ⟨rfl, h⟩)
      · exact Or.inr (Or.inr rfl)
    · exact Or.inr (Or.inr rfl)

/-- Unfolding equation of `_scrape_with_playwright` on a loaded page. -/
theorem playwright_loaded_eq (url : String) (pg : PlaywrightPage) :
    _scrape_with_playwright url (.loaded pg) =
      if (playwrightContent pg).length < 200 then
        { url := pg.finalUrl, title := pg.title,
          content := playwrightContent pg, status := .short_content,
          error := some ("Content too short ("
            ++ toString (playwrightContent pg).length ++ " chars)") }
      else
        { url := pg.finalUrl, title := pg.title,
          content := playwrightContent pg, status := .success,
          error := none } := rfl

/-- Unfolding equation of `_scrape_with_trafilatura` on a completed
fetch whose extraction returned text. -/
theorem trafilatura_some_eq (url : String) (f : TrafilaturaFetch)
    (c : String) (hext : f.extracted = some c) :
    _scrape_with_trafilatura url (.fetched f) =
      if c ≠ "" ∧ 200 ≤ c.length then
        { url := url, title := f.title, content := pyStrip c,
          status := .success, error := none }
      else
        { url := url, title := none, content := "",
          status := .short_content,
          error := some ("Content too short (" ++ toString c.length
            ++ " chars)") } := by
  obtain ⟨fu, ext, ti⟩ := f
  dsimp only at hext ⊢
  subst hext
  rfl

/-- Unfolding equation of `_scrape_with_trafilatura` on a completed
fetch whose extraction returned nothing. -/
theorem trafilatura_none_eq (url : String) (f : TrafilaturaFetch)
    (hext : f.extracted = none) :
    _scrape_with_trafilatura url (.fetched f) =
      { url := url, title := none, content := "",
        status := .short_content,
        error := some ("Content too short (0 chars)") } := by
  obtain ⟨fu, ext, ti⟩ := f
  dsimp only at hext ⊢
  subst hext
  rfl

/-- Unfolding equation of `_scrape_with_beautifulsoup` on a completed
fetch. -/
theorem soup_fetched_eq (url : String) (d : SoupDoc) :
    _scrape_with_beautifulsoup url (.fetched d) =
      if 200 ≤ (soupContent d).length then
        { url := url, title := some (soupTitle d), content := soupContent d,
          status := .success, error := none }
      else
        { url := url, title := some (soupTitle d), content := soupContent d,
          status := .short_content,
          error := some ("Content too short ("
            ++ toString (soupContent d).length ++ " chars)") } := rfl

/-- A loaded Playwright page never yields a `failed` result, and a
success there has content of length at least 200. -/
theorem playwright_loaded_facts (url : String) (pg : PlaywrightPage) :
    (_scrape_with_playwright url (.loaded pg)).status ≠ .failed ∧
    ((_scrape_with_playwright url (.loaded pg)).status = .success →
      200 ≤ (_scrape_with_playwright url (.loaded pg)).content.length) := by
  rw [playwright_loaded_eq]
  split
  · exact ⟨by simp, by simp⟩
  · rename_i hlen
    exact ⟨by simp, fun _ => Nat.le_of_not_lt hlen⟩

/-- A completed trafilatura fetch never yields a `failed` result, and a
success there stores the stripped extracted text, whose raw form had
length at least 200. -/
theorem trafilatura_fetched_facts (url : String) (f : TrafilaturaFetch) :
    (_scrape_with_trafilatura url (.fetched f)).status ≠ .failed ∧
    ((_scrape_with_trafilatura url (.fetched f)).status = .success →
      ∃ c, f.extracted = some c ∧ 200 ≤ c.length ∧
        (_scrape_with_trafilatura url (.fetched f)).content = pyStrip c) := by
  cases hext : f.extracted with
  | none =>
    rw [trafilatura_none_eq url f hext]
    exact ⟨by simp, by simp⟩
  | some c =>
    rw [trafilatura_some_eq url f c hext]
    split
    · rename_i hc
      exact ⟨by simp, fun _ => ⟨c, rfl, hc.2, rfl⟩⟩
    · exact ⟨by simp, by simp⟩

/-- A completed BeautifulSoup fetch never yields a `failed` result, and a
success there has content of length at least 200. -/
theorem soup_fetched_facts (url : String) (d : SoupDoc) :
    (_scrape_with_beautifulsoup url (.fetched d)).status ≠ .failed ∧
    ((_scrape_with_beautifulsoup url (.fetched d)).status = .success →
      200 ≤ (_scrape_with_beautifulsoup url (.fetched d)).content.length) := by
  rw [soup_fetched_eq]
  split
  · rename_i hlen
    exact ⟨by simp, fun _ => hlen⟩
  · exact ⟨by simp, by simp⟩

/-! ## Claim C1 -/

/-- C1 (counterexample): the fallback stage classifies one 200-character
paragraph as `success`, yet the whitespace-normalized content has
length 200 < 300 — the code's success quality gate is 200 characters,
not 300. -/
theorem C1_counterexample :
    (_scrape_with_beautifulsoup "https://example.com/a"
        (.fetched ⟨"https://example.com/a", none, none,
          [sampleText 200]⟩)).status = .success ∧
    (normalizeWhitespace
        (_scrape_with_beautifulsoup "https://example.com/a"
          (.fetched ⟨"https://example.com/a", none, none,
            [sampleText 200]⟩)).content).length < 300 := by
  constructor
  · decide
  · decide

/-- C1 (amended): every `success` result passed a 200-character quality
gate. The Playwright and BeautifulSoup stages guarantee stored
(whitespace-normalized) content of length at least 200; the trafilatura
stage guarantees the raw extracted text had length at least 200 and
stores that text with only leading/trailing whitespace stripped; a
cascade-level success result is of one of these two forms. -/
theorem C1_success_gate :
    (∀ url out, (_scrape_with_playwright url out).status = .success →
      200 ≤ (_scrape_with_playwright url out).content.length) ∧
    (∀ url out, (_scrape_with_beautifulsoup url out).status = .success →
      200 ≤ (_scrape_with_beautifulsoup url out).content.length) ∧
    (∀ url out, (_scrape_with_trafilatura url out).status = .success →
      ∃ c, 200 ≤ c.length ∧
        (_scrape_with_trafilatura url out).content = pyStrip c) ∧
    (∀ w o url up, (scrape_url w o url up).status = .success →
      200 ≤ (scrape_url w o url up).content.length ∨
      ∃ c, 200 ≤ c.length ∧ (scrape_url w o url up).content = pyStrip c) := by
  have hpw : ∀ url out, (_scrape_with_playwright url out).status = .success →
      200 ≤ (_scrape_with_playwright url out).content.length := by
    intro url out h
    cases out with
    | launchError msg => simp [_scrape_with_playwright] at h
    | navError msg => simp [_scrape_with_playwright] at h
    | loaded pg => exact (playwright_loaded_facts url pg).2 h
  have hbs : ∀ url out, (_scrape_with_beautifulsoup url out).status = .success →
      200 ≤ (_scrape_with_beautifulsoup url out).content.length := by
    intro url out h
    cases out with
    | fetchError msg => simp [_scrape_with_beautifulsoup] at h
    | fetched d => exact (soup_fetched_facts url d).2 h
  have htf : ∀ url out, (_scrape_with_trafilatura url out).status = .success →
      ∃ c, 200 ≤ c.length ∧
        (_scrape_with_trafilatura url out).content = pyStrip c := by
    intro url out h
    cases out with
    | fetchError msg => simp [_scrape_with_trafilatura] at h
    | fetched f =>
      obtain ⟨c, -, hc, heq⟩ := (trafilatura_fetched_facts url f).2 h
      exact ⟨c, hc, heq⟩
  refine ⟨hpw, hbs, htf, ?_⟩
  intro w o url up h
  rcases scrape_url_provenance w o url up with ⟨heq, -⟩ | ⟨heq, -⟩ | heq
  · rw [heq] at h ⊢
    exact Or.inl (hpw url o.pw h)
  · rw [heq] at h ⊢
    obtain ⟨c, hc, hcontent⟩ := htf url o.tf h
    exact Or.inr ⟨c, hc, hcontent⟩
  · rw [heq] at h ⊢
    exact Or.inl (hbs url o.bs h)

/-- C1 (witness): a concrete cascade success satisfying the amended gate,
obtained from a fallback-stage extraction of a 200-character paragraph. -/
theorem C1_success_gate_witness :
    200 ≤ (scrape_url ⟨false, false⟩
        ⟨.launchError "no engine", .fetchError "no lib",
          .fetched ⟨"f", none, none, [sampleText 200]⟩⟩
        "https://example.com/a" false).content.length ∨
    ∃ c, 200 ≤ c.length ∧
      (scrape_url ⟨false, false⟩
        ⟨.launchError "no engine", .fetchError "no lib",
          .fetched ⟨"f", none, none, [sampleText 200]⟩⟩
        "https://example.com/a" false).content = pyStrip c :=
  C1_success_gate.2.2.2 ⟨false, false⟩
    ⟨.launchError "no engine", .fetchError "no lib",
      .fetched ⟨"f", none, none, [sampleText 200]⟩⟩
    "https://example.com/a" false (by decide)

/-! ## Claim C2 -/

/-- C2 (counterexample): when the fallback stage's HTTP fetch raises (for
example a connection error), the stage returns a `failed` result — not
`success` or `short_content` — and the orchestrator then emits `failed`
for that URL even though the fallback stage ran. -/
theorem C2_counterexample :
    (_scrape_with_beautifulsoup "https://example.com/a"
      (.fetchError "connection refused")).status = .failed ∧
    (scrape_url ⟨false, false⟩
      ⟨.launchError "no engine", .fetchError "no lib",
        .fetchError "connection refused"⟩
      "https://example.com/a" false).status = .failed := by
  constructor
  · rfl
  · rfl

/-- C2 (amended): the fallback stage never raises outward — every
exception is converted into a result — and it returns `success` or
`short_content` whenever its HTTP fetch and parse complete; but when
the fetch raises, it returns `failed` carrying the exception message,
so the orchestrator can still emit `failed` after the fallback runs. -/
theorem C2_fallback_behavior :
    (∀ url d, (_scrape_with_beautifulsoup url (.fetched d)).status = .success ∨
      (_scrape_with_beautifulsoup url (.fetched d)).status = .short_content) ∧
    (∀ url msg,
      (_scrape_with_beautifulsoup url (.fetchError msg)).status = .failed ∧
      (_scrape_with_beautifulsoup url (.fetchError msg)).error = some msg) := by
  constructor
  · intro url d
    rw [soup_fetched_eq]
    split
    · exact Or.inl rfl
    · exact Or.inr rfl
  · intro url msg
    exact ⟨rfl, rfl⟩

/-! ## Claim C8 -/

/-- C8 (counterexample): a trafilatura-stage success keeps the input URL
in the `url` field even though the redirect-followed fetch ended at a
different final URL — the static stage never copies `response.url` into
the result. -/
theorem C8_counterexample :
    (_scrape_with_trafilatura "https://t.co/x"
        (.fetched ⟨"https://example.com/final", some (sampleText 200),
          none⟩)).status = .success ∧
    (_scrape_with_trafilatura "https://t.co/x"
        (.fetched ⟨"https://example.com/final", some (sampleText 200),
          none⟩)).url = "https://t.co/x" ∧
    (_scrape_with_trafilatura "https://t.co/x"
        (.fetched ⟨"https://example.com/final", some (sampleText 200),
          none⟩)).url ≠ "https://example.com/final" := by
  refine ⟨?_, ?_, ?_⟩
  · decide
  · decide
  · decide

/-- C8 (amended): only the Playwright stage records the post-redirect
final URL, and only when navigation completed; the trafilatura and
BeautifulSoup stages, and every Playwright failure, return the input
URL unchanged in the `url` field. -/
theorem C8_url_field :
    (∀ url pg, (_scrape_with_playwright url (.loaded pg)).url = pg.finalUrl) ∧
    (∀ url msg, (_scrape_with_playwright url (.launchError msg)).url = url) ∧
    (∀ url msg, (_scrape_with_playwright url (.navError msg)).url = url) ∧
    (∀ url out, (_scrape_with_trafilatura url out).url = url) ∧
    (∀ url out, (_scrape_with_beautifulsoup url out).url = url) := by
  refine ⟨?_, fun url msg => rfl, fun url msg => rfl, ?_, ?_⟩
  · intro url pg
    rw [playwright_loaded_eq]
    split
    · rfl
    · rfl
  · intro url out
    cases out with
    | fetchError msg => rfl
    | fetched f =>
      cases hext : f.extracted with
      | none => rw [trafilatura_none_eq url f hext]
      | some c =>
        rw [trafilatura_some_eq url f c hext]
        split
        · rfl
        · rfl
  · intro url out
    cases out with
    | fetchError msg => rfl
    | fetched d =>
      rw [soup_fetched_eq]
      split
      · rfl
      · rfl

/-! ## Claim C3 -/

/-- C3 (confirmed): the first stage whose result is `success` terminates
the cascade — a Playwright success makes the invoked-stage trace exactly
`[dynamic]` with that result returned unchanged, and, when Playwright
did not run or did not succeed, a trafilatura success keeps the
fallback stage out of the trace and is returned unchanged. -/
theorem C3_short_circuit (w : World) (o : UrlOutcomes) (url : String)
    (up : Bool) :
    ((w.playwrightAvailable && up) = true →
      (_scrape_with_playwright url o.pw).status = .success →
      scrape_url_trace w o url up =
        ([.dynamic], _scrape_with_playwright url o.pw)) ∧
    (¬((w.playwrightAvailable && up) = true ∧
        (_scrape_with_playwright url o.pw).status = .success) →
      (w.trafilaturaAvailable && !urlHasGoogleNews url) = true →
      (_scrape_with_trafilatura url o.tf).status = .success →
      Stage.fallback ∉ (scrape_url_trace w o url up).1 ∧
      (scrape_url_trace w o url up).2 = _scrape_with_trafilatura url o.tf) := by
  constructor
  · intro hb hs
    unfold scrape_url_trace
    rw [if_pos hb, if_pos hs]
  · intro hd ht hs
    unfold scrape_url_trace restAfterDynamic
    by_cases hb : (w.playwrightAvailable && up) = true
    · have hns : ¬(_scrape_with_playwright url o.pw).status = .success :=
        fun h => hd ⟨hb, h⟩
      rw [if_pos hb, if_neg hns, if_pos ht, if_pos hs]
      exact ⟨by simp, rfl⟩
    · rw [if_neg hb, if_pos ht, if_pos hs]
      exact ⟨by simp, rfl⟩

/-- C3 (witness): a concrete cascade where the Playwright stage succeeds
on a 200-character article element and the trace is exactly the dynamic
stage with its result returned unchanged. -/
theorem C3_short_circuit_witness :
    scrape_url_trace ⟨true, true⟩
        ⟨.loaded ⟨"https://final.example/a", some "T", some (sampleText 200),
            none, none, none⟩,
          .fetchError "unused", .fetchError "unused2"⟩
        "https://example.com/a" true =
      ([Stage.dynamic],
        _scrape_with_playwright "https://example.com/a"
          (.loaded ⟨"https://final.example/a", some "T", some (sampleText 200),
            none, none, none⟩)) :=
  (C3_short_circuit ⟨true, true⟩
    ⟨.loaded ⟨"https://final.example/a", some "T", some (sampleText 200),
        none, none, none⟩,
      .fetchError "unused", .fetchError "unused2"⟩
    "https://example.com/a" true).1 rfl (by decide)

/-! ## Claim C4 -/

/-- C4 (confirmed): in both the sequential (Playwright) mode and the
concurrent mode, the batch scheduler returns exactly one result per
input URL, and the `i`-th result is the per-URL cascade result of the
`i`-th input URL. -/
theorem C4_batch_alignment (w : World) (outs : Nat → UrlOutcomes)
    (urls : List String) (up : Bool) :
    (scrape_urls w outs urls up).length = urls.length ∧
    ∀ i : Nat, (scrape_urls w outs urls up)[i]? =
      (urls[i]?).map
        (fun u => scrape_url w (outs i) u (up && w.playwrightAvailable)) := by
  unfold scrape_urls
  by_cases hb : (up && w.playwrightAvailable) = true
  · rw [if_pos hb]
    constructor
    · simp [List.enum_length]
    · intro i
      rw [List.getElem?_map, List.getElem?_enum, hb]
      cases urls[i]? <;> rfl
  · rw [if_neg hb]
    have hb' : (up && w.playwrightAvailable) = false := by
      cases h : up && w.playwrightAvailable
      · rfl
      · exact absurd h hb
    constructor
    · simp [List.enum_length]
    · intro i
      rw [List.getElem?_map, List.getElem?_enum, hb']
      cases urls[i]? <;> rfl

/-! ## Claim C5 -/

/-- C5 (counterexample): for a Google News URL with the dynamic stage
unavailable and the static backend available — and even though the
static stage would have succeeded — the orchestrator skips straight to
the fallback stage: the invoked-stage trace is `[fallback]`. -/
theorem C5_counterexample :
    (scrape_url_trace ⟨false, true⟩
        ⟨.launchError "unused", .fetched ⟨"f", some (sampleText 200), none⟩,
          .fetchError "net down"⟩
        "https://news.google.com/articles/abc" true).1 = [Stage.fallback] ∧
    (_scrape_with_trafilatura "https://news.google.com/articles/abc"
        (.fetched ⟨"f", some (sampleText 200), none⟩)).status = .success := by
  constructor
  · decide
  · decide

/-- C5 (amended): when the static backend is available and the URL does
not contain the substring `news.google.com`, the stages run in priority
order dynamic → static → fallback: if the dynamic stage is skipped or
did not succeed, the static stage is attempted next, and the fallback
only after it. URLs containing `news.google.com` skip the static stage
even when its backend is available. -/
theorem C5_priority_order (w : World) (o : UrlOutcomes) (url : String)
    (up : Bool) (ht : w.trafilaturaAvailable = true)
    (hg : urlHasGoogleNews url = false)
    (hd : ¬((w.playwrightAvailable && up) = true ∧
      (_scrape_with_playwright url o.pw).status = .success)) :
    (scrape_url_trace w o url up).1 =
      (if (w.playwrightAvailable && up) = true then [Stage.dynamic] else []) ++
      (if (_scrape_with_trafilatura url o.tf).status = .success
        then [Stage.static] else [Stage.static, Stage.fallback]) := by
  have htg : (w.trafilaturaAvailable && !urlHasGoogleNews url) = true := by
    rw [ht, hg]
    rfl
  unfold scrape_url_trace restAfterDynamic
  by_cases hb : (w.playwrightAvailable && up) = true
  · have hns : ¬(_scrape_with_playwright url o.pw).status = .success :=
      fun h => hd ⟨hb, h⟩
    rw [if_pos hb, if_neg hns, if_pos htg]
    by_cases hts : (_scrape_with_trafilatura url o.tf).status = .success
    · rw [if_pos hts, if_pos hb, if_pos hts]
      rfl
    · rw [if_neg hts, if_pos hb, if_neg hts]
      rfl
  · rw [if_neg hb, if_pos htg]
    by_cases hts : (_scrape_with_trafilatura url o.tf).status = .success
    · rw [if_pos hts, if_neg hb, if_pos hts]
      rfl
    · rw [if_neg hts, if_neg hb, if_neg hts]
      rfl

/-- C5 (witness): a concrete non-Google-News cascade in which the dynamic
stage fails to launch and the static stage is attempted next, before the
fallback. -/
theorem C5_priority_order_witness :
    (scrape_url_trace ⟨true, true⟩
        ⟨.launchError "boom", .fetchError "nope", .fetchError "down"⟩
        "https://example.com/a" true).1 =
      (if ((⟨true, true⟩ : World).playwrightAvailable && true) = true
        then [Stage.dynamic] else []) ++
      (if (_scrape_with_trafilatura "https://example.com/a"
            (.fetchError "nope")).status = .success
        then [Stage.static] else [Stage.static, Stage.fallback]) :=
  C5_priority_order ⟨true, true⟩
    ⟨.launchError "boom", .fetchError "nope", .fetchError "down"⟩
    "https://example.com/a" true rfl (by decide) (by decide)

/-! ## Claim C6 -/

/-- C6 (counterexample): on a page whose `article` element holds 250
characters and whose `main` element holds 500, the selector cascade
keeps the 250-character `article` text — even though its cleaned length
does not exceed 400 while the `main` candidate's does; the winning
threshold in the code is 200 characters of raw text, not 400 of cleaned
text. -/
theorem C6_counterexample :
    selectContent ⟨"f", none, some (sampleText 250), some (sampleTextB 500),
        none, none⟩ = sampleText 250 ∧
    (normalizeWhitespace (sampleText 250)).length = 250 ∧
    (normalizeWhitespace (sampleTextB 500)).length = 500 := by
  refine ⟨?_, ?_, ?_⟩
  · decide
  · decide
  · decide

/-- C6 (amended): the dynamic extractor's content cascade tries, in
order, the `article` element, the `main` element, the joined paragraph
texts, and the `body` text; each later candidate is consulted only
while the content so far is shorter than 200 characters, so the first
candidate whose raw text has length at least 200 wins. -/
theorem C6_selector_cascade (pg : PlaywrightPage) :
    (∀ t, pg.articleText = some t → 200 ≤ t.length →
      selectContent pg = t) ∧
    (∀ m, (selStep "" pg.articleText).length < 200 →
      pg.mainText = some m → 200 ≤ m.length →
      selectContent pg = m) ∧
    (∀ ps, (selStep (selStep "" pg.articleText) pg.mainText).length < 200 →
      pg.paragraphTexts = some ps → 200 ≤ (joinParagraphs ps).length →
      selectContent pg = joinParagraphs ps) ∧
    (∀ b, (selStep (selStep (selStep "" pg.articleText) pg.mainText)
        (pg.paragraphTexts.map joinParagraphs)).length < 200 →
      pg.bodyText = some b → 200 ≤ b.length →
      selectContent pg = b) := by
  refine ⟨?_, ?_, ?_, ?_⟩
  · intro t hart hlen
    have h1 : selStep "" pg.articleText = t := by
      rw [hart]
      unfold selStep
      rw [if_pos (Or.inl rfl)]
      rfl
    unfold selectContent
    rw [h1, selStep_of_le t pg.mainText hlen,
      selStep_of_le t (pg.paragraphTexts.map joinParagraphs) hlen,
      selStep_of_le t pg.bodyText hlen]
  · intro m h1 hm hlen
    unfold selectContent
    rw [hm, selStep_some_of_lt _ m h1,
      selStep_of_le m (pg.paragraphTexts.map joinParagraphs) hlen,
      selStep_of_le m pg.bodyText hlen]
  · intro ps h2 hps hlen
    unfold selectContent
    rw [hps, Option.map_some', selStep_some_of_lt _ (joinParagraphs ps) h2,
      selStep_of_le (joinParagraphs ps) pg.bodyText hlen]
  · intro b h3 hb hlen
    unfold selectContent
    rw [hb, selStep_some_of_lt _ b h3]

/-- C6 (witness): a page whose `article` element carries 200 characters
makes the cascade stop at the first candidate. -/
theorem C6_selector_cascade_witness :
    selectContent ⟨"f", none, some (sampleText 200), some (sampleTextB 500),
        none, none⟩ = sampleText 200 :=
  (C6_selector_cascade ⟨"f", none, some (sampleText 200),
    some (sampleTextB 500), none, none⟩).1 (sampleText 200) rfl (by decide)

/-! ## Claim C7 -/

/-- C7 (counterexample): a trafilatura-stage success whose extracted text
contains an internal blank line is stored as-is (only end-stripped):
the stored content is not whitespace-normalized. -/
theorem C7_counterexample :
    (_scrape_with_trafilatura "https://example.com/a"
        (.fetched ⟨"f", some (sampleText 100 ++ "\n\n" ++ sampleTextB 100),
          none⟩)).status = .success ∧
    (_scrape_with_trafilatura "https://example.com/a"
        (.fetched ⟨"f", some (sampleText 100 ++ "\n\n" ++ sampleTextB 100),
          none⟩)).content ≠
      normalizeWhitespace
        ((_scrape_with_trafilatura "https://example.com/a"
          (.fetched ⟨"f", some (sampleText 100 ++ "\n\n" ++ sampleTextB 100),
            none⟩)).content) := by
  constructor
  · decide
  · decide

/-- C7 (amended): the Playwright and BeautifulSoup stages whitespace-
normalize the extracted text before the quality gate and store the
normalized text; the trafilatura stage instead gates on the raw length
of the extracted text and stores it with only leading and trailing
whitespace stripped. -/
theorem C7_normalization :
    (∀ url pg, (_scrape_with_playwright url (.loaded pg)).content =
      normalizeWhitespace (selectContent pg)) ∧
    (∀ url d, (_scrape_with_beautifulsoup url (.fetched d)).content =
      normalizeWhitespace (String.intercalate "\n\n"
        ((d.paragraphs.map pyStrip).filter (· ≠ "")))) ∧
    (∀ url fu c ti, 200 ≤ c.length →
      (_scrape_with_trafilatura url
        (.fetched ⟨fu, some c, ti⟩)).status = .success ∧
      (_scrape_with_trafilatura url
        (.fetched ⟨fu, some c, ti⟩)).content = pyStrip c) := by
  refine ⟨?_, ?_, ?_⟩
  · intro url pg
    rw [playwright_loaded_eq, ← playwrightContent_eq]
    split
    · rfl
    · rfl
  · intro url d
    rw [soup_fetched_eq]
    split
    · rfl
    · rfl
  · intro url fu c ti hc
    have hne : c ≠ "" := by
      intro h
      subst h
      exact absurd hc (by decide)
    rw [trafilatura_some_eq url ⟨fu, some c, ti⟩ c rfl, if_pos ⟨hne, hc⟩]
    exact ⟨rfl, rfl⟩

/-- C7 (witness): at a concrete 200-character extraction the trafilatura
stage succeeds and stores the stripped text. -/
theorem C7_normalization_witness :
    (_scrape_with_trafilatura "https://example.com/a"
      (.fetched ⟨"f", some (sampleText 200), none⟩)).status = .success ∧
    (_scrape_with_trafilatura "https://example.com/a"
      (.fetched ⟨"f", some (sampleText 200), none⟩)).content =
      pyStrip (sampleText 200) :=
  C7_normalization.2.2 "https://example.com/a" "f" (sampleText 200) none
    (by decide)

/-! ## Claim C9 -/

/-- C9 (confirmed): every cascade result whose status is not `success`
carries a non-null error diagnostic, and every `short_content` result
returned by the cascade carries the message stating its observed
content length. -/
theorem C9_error_diagnostics (w : World) (o : UrlOutcomes) (url : String)
    (up : Bool) :
    ((scrape_url w o url up).status ≠ .success →
      ((scrape_url w o url up).error).isSome = true) ∧
    ((scrape_url w o url up).status = .short_content →
      (scrape_url w o url up).error =
        some ("Content too short ("
          ++ toString (scrape_url w o url up).content.length
          ++ " chars)")) := by
  rcases scrape_url_provenance w o url up with ⟨heq, hs⟩ | ⟨heq, hs⟩ | heq
  · rw [heq]
    constructor
    · intro h
      exact absurd hs h
    · intro h
      rw [h] at hs
      exact absurd hs (by decide)
  · rw [heq]
    constructor
    · intro h
      exact absurd hs h
    · intro h
      rw [h] at hs
      exact absurd hs (by decide)
  · rw [heq]
    cases o.bs with
    | fetchError msg =>
      constructor
      · intro _
        rfl
      · intro h
        exact Status.noConfusion h
    | fetched d =>
      rw [soup_fetched_eq]
      split
      · constructor
        · intro h
          exact absurd rfl h
        · intro h
          exact Status.noConfusion h
      · constructor
        · intro _
          rfl
        · intro _
          rfl

/-- C9 (witness): a concrete cascade ending in a `short_content` fallback
result whose error message states the observed length. -/
theorem C9_error_diagnostics_witness :
    (scrape_url ⟨false, false⟩
        ⟨.launchError "unused", .fetchError "unused2",
          .fetched ⟨"f", none, none, []⟩⟩
        "https://example.com/a" false).error =
      some ("Content too short ("
        ++ toString (scrape_url ⟨false, false⟩
            ⟨.launchError "unused", .fetchError "unused2",
              .fetched ⟨"f", none, none, []⟩⟩
            "https://example.com/a" false).content.length
        ++ " chars)") :=
  (C9_error_diagnostics ⟨false, false⟩
    ⟨.launchError "unused", .fetchError "unused2",
      .fetched ⟨"f", none, none, []⟩⟩
    "https://example.com/a" false).2 (by decide)

/-! ## Claim C10 -/

/-- C10 (confirmed): a `failed` result — from any stage or from the
cascade — always has empty content and a null title: no partially
extracted content or title survives an error. -/
theorem C10_failed_empty (w : World) (o : UrlOutcomes) (url : String)
    (up : Bool) :
    (∀ out, (_scrape_with_playwright url out).status = .failed →
      (_scrape_with_playwright url out).content = "" ∧
      (_scrape_with_playwright url out).title = none) ∧
    (∀ out, (_scrape_with_trafilatura url out).status = .failed →
      (_scrape_with_trafilatura url out).content = "" ∧
      (_scrape_with_trafilatura url out).title = none) ∧
    (∀ out, (_scrape_with_beautifulsoup url out).status = .failed →
      (_scrape_with_beautifulsoup url out).content = "" ∧
      (_scrape_with_beautifulsoup url out).title = none) ∧
    ((scrape_url w o url up).status = .failed →
      (scrape_url w o url up).content = "" ∧
      (scrape_url w o url up).title = none) := by
  have hpw : ∀ out, (_scrape_with_playwright url out).status = .failed →
      (_scrape_with_playwright url out).content = "" ∧
      (_scrape_with_playwright url out).title = none := by
    intro out h
    cases out with
    | launchError msg => exact ⟨rfl, rfl⟩
    | navError msg => exact ⟨rfl, rfl⟩
    | loaded pg => exact absurd h (playwright_loaded_facts url pg).1
  have htf : ∀ out, (_scrape_with_trafilatura url out).status = .failed →
      (_scrape_with_trafilatura url out).content = "" ∧
      (_scrape_with_trafilatura url out).title = none := by
    intro out h
    cases out with
    | fetchError msg => exact ⟨rfl, rfl⟩
    | fetched f => exact absurd h (trafilatura_fetched_facts url f).1
  have hbs : ∀ out, (_scrape_with_beautifulsoup url out).status = .failed →
      (_scrape_with_beautifulsoup url out).content = "" ∧
      (_scrape_with_beautifulsoup url out).title = none := by
    intro out h
    cases out with
    | fetchError msg => exact ⟨rfl, rfl⟩
    | fetched d => exact absurd h (soup_fetched_facts url d).1
  refine ⟨hpw, htf, hbs, ?_⟩
  intro h
  rcases scrape_url_provenance w o url up with ⟨heq, -⟩ | ⟨heq, -⟩ | heq
  · rw [heq] at h ⊢
    exact hpw o.pw h
  · rw [heq] at h ⊢
    exact htf o.tf h
  · rw [heq] at h ⊢
    exact hbs o.bs h

/-- C10 (witness): a concrete cascade whose fallback fetch raises yields
a `failed` result with empty content and a null title. -/
theorem C10_failed_empty_witness :
    (scrape_url ⟨false, false⟩
        ⟨.launchError "unused", .fetchError "unused2",
          .fetchError "connection reset"⟩
        "https://example.com/a" false).content = "" ∧
    (scrape_url ⟨false, false⟩
        ⟨.launchError "unused", .fetchError "unused2",
          .fetchError "connection reset"⟩
        "https://example.com/a" false).title = none :=
  (C10_failed_empty ⟨false, false⟩
    ⟨.launchError "unused", .fetchError "unused2",
      .fetchError "connection reset"⟩
    "https://example.com/a" false).2.2.2 (by decide)

end NewsScraper
